import Mathlib

/-!
Verification of the multi-cohort correlated-data simulator in
`tutorials/statisticalEstimates/_0.ipynb`.

The notebook draws, for each of five firm-size cohorts, `num_samples`
observations from a 4-variate normal distribution (shared zero mean vector,
cohort-specific correlation matrix), attaches a cohort label and a uniformly
drawn integer firm size, and concatenates the five per-cohort frames.

The pseudorandom source is modelled as an explicit state (a linear
congruential generator); the multivariate-normal draw is modelled as a
deterministic function of that state, the mean vector and the correlation
matrix (the distributional shape is irrelevant to the verified properties,
which concern shapes, labels, bounds, ordering and determinism).
-/

/-- Linear congruential step: the model of one advance of the shared
pseudorandom state consumed by `np.random`. -/
def lcgNext (s : Nat) : Nat := (1103515245 * s + 12345) % 2 ^ 31

/-- A pseudorandom rational in `[0, 1)` read off the current state. -/
def unif (s : Nat) : ℚ := (s : ℚ) / 2 ^ 31

/-- One row of `np.random.multivariate_normal(mean, cov)`: four underlying
draws are combined through the covariance matrix and shifted by the mean.
Returns the drawn 4-vector and the advanced state. -/
def mvnDraw (mean : Fin 4 → ℚ) (cov : Fin 4 → Fin 4 → ℚ) (s : Nat) :
    (Fin 4 → ℚ) × Nat :=
  let s1 := lcgNext s
  let s2 := lcgNext s1
  let s3 := lcgNext s2
  let s4 := lcgNext s3
  let z : Fin 4 → ℚ := ![unif s1, unif s2, unif s3, unif s4]
  (fun i => mean i + ∑ j, cov i j * z j, s4)

/-- `np.random.multivariate_normal(mean, cov, size=n)`: a list of `n`
4-vectors, drawn in order, threading the pseudorandom state. -/
def mvnSamples (mean : Fin 4 → ℚ) (cov : Fin 4 → Fin 4 → ℚ) :
    Nat → Nat → List (Fin 4 → ℚ) × Nat
  | 0, s => ([], s)
  | n + 1, s =>
    let p := mvnDraw mean cov s
    let q := mvnSamples mean cov n p.2
    (p.1 :: q.1, q.2)

/-- One draw of `np.random.randint(low, high)`: an integer in
`[low, high)` (uniform over that half-open range). -/
def randint (low high : ℤ) (s : Nat) : ℤ × Nat :=
  (low + ((lcgNext s % (high - low).toNat : Nat) : ℤ), lcgNext s)

/-- `np.random.randint(low, high, size=n)`: `n` integers in `[low, high)`,
drawn in order, threading the pseudorandom state. -/
def randints (low high : ℤ) : Nat → Nat → List ℤ × Nat
  | 0, s => ([], s)
  | n + 1, s =>
    let p := randint low high s
    let q := randints low high n p.2
    (p.1 :: q.1, q.2)

/-- One row of the concatenated dataset: the four z-scored variables, the
cohort label, and the firm size.  `firm_size` is an `Option` because a frame
that never received a `firm_size` column contributes null (`none`) values
after `pd.concat` aligns the columns. -/
structure Row where
  job_sat : ℚ
  int_qui : ℚ
  age : ℚ
  org_tnr : ℚ
  cohort : String
  firm_size : Option ℤ
deriving DecidableEq

/-- Build a per-cohort frame: `pd.DataFrame(draws, columns=names)` followed by
`df.loc[:, 'cohort'] = label` and the `firm_size` column (one entry per row,
in draw order). -/
def mkFrame (label : String) (vals : List (Fin 4 → ℚ))
    (sizes : List (Option ℤ)) : List Row :=
  List.zipWith (fun v sz => ⟨v 0, v 1, v 2, v 3, label, sz⟩) vals sizes

-- cell-13 of the notebook: sample size, shared mean vector, column names.

/-- `num_samples = 1000`. -/
def num_samples : Nat := 1000

/-- `mu = np.repeat(0, 4)`: the mean vector shared by all five cohorts. -/
def mu : Fin 4 → ℚ := fun _ => 0

/-- `names = ['job_sat', 'int_qui', 'age', 'org_tnr']`. -/
def names : List String := ["job_sat", "int_qui", "age", "org_tnr"]

/-- Correlation matrix of the micro-firm cohort (cell-15). -/
def r_1_5 : Fin 4 → Fin 4 → ℚ :=
  ![![1.00, -0.40, -0.03, 0.11],
    ![-0.40, 1.00, -0.05, -0.09],
    ![-0.03, -0.05, 1.00, 0.05],
    ![0.11, -0.09, 0.05, 1.00]]

/-- Correlation matrix of the small-firm cohort (cell-18). -/
def r_6_25 : Fin 4 → Fin 4 → ℚ :=
  ![![1.00, -0.30, -0.03, 0.11],
    ![-0.30, 1.00, -0.05, -0.09],
    ![-0.03, -0.05, 1.00, 0.05],
    ![0.11, -0.09, 0.05, 1.00]]

/-- Correlation matrix of the medium-firm cohort (cell-21). -/
def r_26_100 : Fin 4 → Fin 4 → ℚ :=
  ![![1.00, -0.25, -0.03, 0.11],
    ![-0.25, 1.00, -0.05, -0.09],
    ![-0.03, -0.05, 1.00, 0.05],
    ![0.11, -0.09, 0.05, 1.00]]

/-- Correlation matrix of the large-firm cohort (cell-23). -/
def r_101_500 : Fin 4 → Fin 4 → ℚ :=
  ![![1.00, -0.20, -0.03, 0.11],
    ![-0.20, 1.00, -0.05, -0.09],
    ![-0.03, -0.05, 1.00, 0.05],
    ![0.11, -0.09, 0.05, 1.00]]

/-- Correlation matrix of the very-large-firm cohort (cell-25). -/
def r_501_ : Fin 4 → Fin 4 → ℚ :=
  ![![1.00, -0.15, -0.03, 0.11],
    ![-0.15, 1.00, -0.05, -0.09],
    ![-0.03, -0.05, 1.00, 0.05],
    ![0.11, -0.09, 0.05, 1.00]]

/-- The pseudorandom state at the start of the notebook run (no seed is set
in the source; the run is modelled from an arbitrary fixed initial state). -/
def seed0 : Nat := 20220101

-- cell-15: micro firms (1-5 employees).

/-- Draws for `df_1_5`. -/
def micro_draws : List (Fin 4 → ℚ) × Nat := mvnSamples mu r_1_5 num_samples seed0

/-- `np.random.randint(low=1, high=5, size=num_samples)` for `df_1_5`. -/
def micro_sizes : List ℤ × Nat := randints 1 5 num_samples micro_draws.2

/-- `df_1_5`: micro-firm frame, cohort label `'micro'`, own firm sizes. -/
def df_1_5 : List Row := mkFrame "micro" micro_draws.1 (micro_sizes.1.map some)

-- cell-18: small firms (6-25 employees); note the label is 'large' in the source.

/-- Draws for `df_6_25`. -/
def small_draws : List (Fin 4 → ℚ) × Nat :=
  mvnSamples mu r_6_25 num_samples micro_sizes.2

/-- `np.random.randint(low=6, high=25, size=num_samples)` for `df_6_25`. -/
def small_sizes : List ℤ × Nat := randints 6 25 num_samples small_draws.2

/-- `df_6_25`: the 6-25-employee frame.  The source assigns the cohort label
`'large'` to it (not `'small'`). -/
def df_6_25 : List Row := mkFrame "large" small_draws.1 (small_sizes.1.map some)

-- cell-21: medium firms (26-100 employees).

/-- Draws for `df_26_100`. -/
def medium_draws : List (Fin 4 → ℚ) × Nat :=
  mvnSamples mu r_26_100 num_samples small_sizes.2

/-- `np.random.randint(low=26, high=100, size=num_samples)` for `df_26_100`. -/
def medium_sizes : List ℤ × Nat := randints 26 100 num_samples medium_draws.2

/-- `df_26_100`: medium-firm frame, cohort label `'medium'`, own firm sizes. -/
def df_26_100 : List Row :=
  mkFrame "medium" medium_draws.1 (medium_sizes.1.map some)

-- cell-23: large firms (101-500 employees).  The cohort label is written onto
-- df_101_500, but the firm-size assignment targets df_501_ instead of
-- df_101_500, so df_101_500 never receives a firm_size column: after
-- pd.concat its rows carry null firm_size values.

/-- Draws for `df_101_500`. -/
def large_draws : List (Fin 4 → ℚ) × Nat :=
  mvnSamples mu r_101_500 num_samples medium_sizes.2

/-- `df_101_500`: the 101-500-employee frame, cohort label `'large'` (the same
label as `df_6_25`), and no `firm_size` column — the source's firm-size
assignment for this cohort writes into `df_501_` instead, so every row has
null (`none`) firm size after concatenation. -/
def df_101_500 : List Row :=
  mkFrame "large" large_draws.1 (List.replicate num_samples none)

/-- `np.random.randint(low=101, high=500, size=num_samples)`: drawn in
cell-23 and assigned into `df_501_` (the wrong frame); cell-25 later rebuilds
`df_501_` from scratch, discarding these values. -/
def large_leak_sizes : List ℤ × Nat := randints 101 500 num_samples large_draws.2

-- cell-25: very large firms (501+ employees).

/-- Draws for `df_501_`. -/
def vlarge_draws : List (Fin 4 → ℚ) × Nat :=
  mvnSamples mu r_501_ num_samples large_leak_sizes.2

/-- `np.random.randint(low=501, high=2000, size=num_samples)` for `df_501_`. -/
def vlarge_sizes : List ℤ × Nat := randints 501 2000 num_samples vlarge_draws.2

/-- `df_501_`: very-large-firm frame, cohort label `'very large'`, own firm
sizes (this assignment overwrites the values leaked into `df_501_` by
cell-23). -/
def df_501_ : List Row :=
  mkFrame "very large" vlarge_draws.1 (vlarge_sizes.1.map some)

-- cell-27: data preparation.

/-- `df = pd.concat([df_1_5, df_6_25, df_26_100, df_101_500, df_501_], axis=0)`. -/
def df : List Row := df_1_5 ++ df_6_25 ++ df_26_100 ++ df_101_500 ++ df_501_

/-- One call of `np.random.multivariate_normal(mean, cov, size=n)` as issued
by a notebook cell: its mean vector, covariance matrix and sample count. -/
structure MvnCall where
  mean : Fin 4 → ℚ
  cov : Fin 4 → Fin 4 → ℚ
  size : Nat

/-- The five multivariate-normal calls of cells 15, 18, 21, 23 and 25, in
notebook order. -/
def nbMvnCalls : List MvnCall :=
  [⟨mu, r_1_5, num_samples⟩, ⟨mu, r_6_25, num_samples⟩,
   ⟨mu, r_26_100, num_samples⟩, ⟨mu, r_101_500, num_samples⟩,
   ⟨mu, r_501_, num_samples⟩]

/-- Configuration of one cohort: its label, correlation matrix and firm-size
bounds (the arguments of one notebook cell's sampling block). -/
structure CohortSpec where
  label : String
  corr : Fin 4 → Fin 4 → ℚ
  firm_size_low : ℤ
  firm_size_high : ℤ

/-- One cohort's sampling block, as each notebook cell performs it: draw `n`
4-vectors from the multivariate normal with mean `mu` and the cohort's
correlation matrix, label them, attach `n` uniform firm sizes in
`[firm_size_low, firm_size_high)`, threading the pseudorandom state. -/
def sampleCohort (n : Nat) (c : CohortSpec) (s : Nat) : List Row × Nat :=
  let draws := mvnSamples mu c.corr n s
  let sizes := randints c.firm_size_low c.firm_size_high n draws.2
  (mkFrame c.label draws.1 (sizes.1.map some), sizes.2)

/-- The notebook's overall sampling pattern: run `sampleCohort` for each
cohort in the given order and concatenate the per-cohort frames, in order
(`pd.concat` of the frames in the listed order). -/
def generate (n : Nat) : List CohortSpec → Nat → List Row
  | [], _ => []
  | c :: rest, s =>
    let p := sampleCohort n c s
    p.1 ++ generate n rest p.2

/-- The micro-firm cohort's configuration as one record (label `'micro'`,
correlation matrix of cell-15, firm sizes in `[1, 5)`). -/
def microSpec : CohortSpec := ⟨"micro", r_1_5, 1, 5⟩

/-- The sampling loop of `generate` as a relation between the input
configuration (sample count, cohort specs, initial pseudorandom state) and
an output dataset: one constructor per cohort processed, threading the
state exactly as the code does. -/
inductive GenerateRel (n : Nat) : List CohortSpec → Nat → List Row → Prop where
  | nil (s : Nat) : GenerateRel n [] s []
  | cons (c : CohortSpec) (rest : List CohortSpec) (s : Nat) (out : List Row) :
      GenerateRel n rest (sampleCohort n c s).2 out →
      GenerateRel n (c :: rest) s ((sampleCohort n c s).1 ++ out)

/-- Modelled from the spec: the notebook performs no input validation and
defines no error type; §4.1 and §7 of the design specify that `generate`
fails with an `InvalidConfiguration` error, the only user-facing failure
kind. -/
inductive InvalidConfiguration where
  | invalidConfiguration
deriving DecidableEq

/-- Symmetry of a 4×4 matrix. -/
def symm4 (M : Fin 4 → Fin 4 → ℚ) : Prop := ∀ i j, M i j = M j i

/-- Determinant of a 2×2 block. -/
def det2 (a b c d : ℚ) : ℚ := a * d - b * c

/-- The principal 2×2 minor of `M` on rows/columns `i, j`. -/
def minor2 (M : Fin 4 → Fin 4 → ℚ) (i j : Fin 4) : ℚ :=
  det2 (M i i) (M i j) (M j i) (M j j)

/-- Determinant of the 3×3 submatrix of `M` on rows `r1 r2 r3` and columns
`c1 c2 c3` (Laplace expansion along the first row). -/
def det3g (M : Fin 4 → Fin 4 → ℚ) (r1 r2 r3 c1 c2 c3 : Fin 4) : ℚ :=
  M r1 c1 * (M r2 c2 * M r3 c3 - M r2 c3 * M r3 c2)
  - M r1 c2 * (M r2 c1 * M r3 c3 - M r2 c3 * M r3 c1)
  + M r1 c3 * (M r2 c1 * M r3 c2 - M r2 c2 * M r3 c1)

/-- Determinant of the full 4×4 matrix (Laplace expansion along row 0). -/
def det4 (M : Fin 4 → Fin 4 → ℚ) : ℚ :=
  M 0 0 * det3g M 1 2 3 1 2 3 - M 0 1 * det3g M 1 2 3 0 2 3
  + M 0 2 * det3g M 1 2 3 0 1 3 - M 0 3 * det3g M 1 2 3 0 1 2

/-- All fifteen principal minors of a 4×4 matrix. -/
def principalMinors (M : Fin 4 → Fin 4 → ℚ) : List ℚ :=
  [M 0 0, M 1 1, M 2 2, M 3 3,
   minor2 M 0 1, minor2 M 0 2, minor2 M 0 3,
   minor2 M 1 2, minor2 M 1 3, minor2 M 2 3,
   det3g M 1 2 3 1 2 3, det3g M 0 2 3 0 2 3,
   det3g M 0 1 3 0 1 3, det3g M 0 1 2 0 1 2,
   det4 M]

/-- Positive semi-definiteness of a symmetric 4×4 matrix, rendered by
Sylvester's criterion: every principal minor is nonneg. -/
def psd4 (M : Fin 4 → Fin 4 → ℚ) : Prop := ∀ m ∈ principalMinors M, 0 ≤ m

/-- Modelled from the spec: a CohortSpec is valid when its correlation matrix
is symmetric and positive semi-definite and `firm_size_low < firm_size_high`
(§4.1 input conditions). -/
def validSpec (c : CohortSpec) : Prop :=
  symm4 c.corr ∧ psd4 c.corr ∧ c.firm_size_low < c.firm_size_high

instance decSymm4 (M : Fin 4 → Fin 4 → ℚ) : Decidable (symm4 M) := by
  unfold symm4
  infer_instance

instance decPsd4 (M : Fin 4 → Fin 4 → ℚ) : Decidable (psd4 M) := by
  unfold psd4
  infer_instance

instance decValidSpec : DecidablePred validSpec := fun c => by
  unfold validSpec
  infer_instance

/-- The per-cohort loop of the checked `generate`: validate each cohort in
order, sample it, and abort with `InvalidConfiguration` at the first
offending cohort (no partial output escapes the `Except`). -/
def goGen (n : Nat) : List CohortSpec → Nat → Except InvalidConfiguration (List Row)
  | [], _ => .ok []
  | c :: rest, s =>
    if validSpec c then
      match goGen n rest (sampleCohort n c s).2 with
      | .ok out => .ok ((sampleCohort n c s).1 ++ out)
      | .error e => .error e
    else .error .invalidConfiguration

/-- Modelled from the spec: `generate(num_samples, cohort_specs)` per §4.1
and §7: fails with `InvalidConfiguration` when `num_samples <= 0` or some
cohort spec is invalid, otherwise produces the full dataset. -/
def generateChecked (n : ℤ) (specs : List CohortSpec) (seed : Nat) :
    Except InvalidConfiguration (List Row) :=
  if n ≤ 0 then .error .invalidConfiguration
  else goGen n.toNat specs seed

/-- One code cell of the notebook, abstracted to the global names it reads
(before defining them itself) and the global names it assigns. -/
structure Cell where
  reads : List String
  writes : List String

/-- The notebook's code cells in top-to-bottom order (cells 5, 7, 13, 15, 16,
18, 19, 21, 23, 25, 27): imports; viz options; constants; the five cohort
cells with their `head()` previews for the first two; and the concatenation
cell.  Cell index 8 (cell-23, the fourth cohort) reads `df_501_` because its
firm-size assignment targets `df_501_`, which no earlier cell defines. -/
def nbCells : List Cell :=
  [⟨[], ["os", "np", "plt", "rc", "sm", "smf", "pd"]⟩,
   ⟨["rc"], []⟩,
   ⟨["np"], ["num_samples", "mu", "names"]⟩,
   ⟨["np", "pd", "mu", "num_samples", "names"], ["r", "df_1_5"]⟩,
   ⟨["df_1_5"], []⟩,
   ⟨["np", "pd", "mu", "num_samples", "names"], ["r", "df_6_25"]⟩,
   ⟨["df_6_25"], []⟩,
   ⟨["np", "pd", "mu", "num_samples", "names"], ["r", "df_26_100"]⟩,
   ⟨["np", "pd", "mu", "num_samples", "names", "df_501_"], ["r", "df_101_500"]⟩,
   ⟨["np", "pd", "mu", "num_samples", "names"], ["r", "df_501_"]⟩,
   ⟨["pd", "df_1_5", "df_6_25", "df_26_100", "df_101_500", "df_501_"], ["df"]⟩]

/-- Run cells in order over an environment of defined names: a cell that
reads an undefined name raises a `NameError`, reported as the index of the
failing cell; later cells are not executed. -/
def runCellsFrom (i : Nat) : List Cell → List String → Except Nat (List String)
  | [], env => .ok env
  | c :: rest, env =>
    if c.reads.all (fun v => env.contains v) then
      runCellsFrom (i + 1) rest (env ++ c.writes)
    else .error i

/-- A fresh top-to-bottom run of the notebook from an empty environment. -/
def runNotebook : Except Nat (List String) := runCellsFrom 0 nbCells []

-- Basic shape lemmas.

theorem mvnSamples_fst_length (mean : Fin 4 → ℚ) (cov : Fin 4 → Fin 4 → ℚ) :
    ∀ n s, (mvnSamples mean cov n s).1.length = n := by
  intro n
  induction n with
  | zero => intro s; rfl
  | succ k ih => intro s; simp [mvnSamples, ih]

theorem randints_fst_length (low high : ℤ) :
    ∀ n s, (randints low high n s).1.length = n := by
  intro n
  induction n with
  | zero => intro s; rfl
  | succ k ih => intro s; simp [randints, ih]

theorem mkFrame_length (label : String) (vals : List (Fin 4 → ℚ))
    (sizes : List (Option ℤ)) :
    (mkFrame label vals sizes).length = min vals.length sizes.length := by
  simp [mkFrame]

theorem mkFrame_map_cohort (label : String) :
    ∀ (vals : List (Fin 4 → ℚ)) (sizes : List (Option ℤ)),
      (mkFrame label vals sizes).map Row.cohort =
        List.replicate (min vals.length sizes.length) label := by
  intro vals
  induction vals with
  | nil => intro sizes; simp [mkFrame]
  | cons v vs ih =>
    intro sizes
    cases sizes with
    | nil => simp [mkFrame]
    | cons sz szs =>
      have h := ih szs
      simp only [mkFrame] at h ⊢
      simp [List.length_cons, Nat.succ_min_succ, List.replicate_succ, h]

theorem mkFrame_map_firm_size (label : String) :
    ∀ (vals : List (Fin 4 → ℚ)) (sizes : List (Option ℤ)),
      vals.length = sizes.length →
      (mkFrame label vals sizes).map Row.firm_size = sizes := by
  intro vals
  induction vals with
  | nil =>
    intro sizes h
    cases sizes with
    | nil => rfl
    | cons sz szs => simp at h
  | cons v vs ih =>
    intro sizes h
    cases sizes with
    | nil => simp at h
    | cons sz szs =>
      simp [mkFrame] at h ⊢
      exact ih szs h

-- Shape of the five frames.

theorem df_1_5_map_cohort : df_1_5.map Row.cohort = List.replicate 1000 "micro" := by
  rw [df_1_5, mkFrame_map_cohort]
  simp [micro_draws, micro_sizes, mvnSamples_fst_length, randints_fst_length,
    num_samples]

theorem df_6_25_map_cohort : df_6_25.map Row.cohort = List.replicate 1000 "large" := by
  rw [df_6_25, mkFrame_map_cohort]
  simp [small_draws, small_sizes, mvnSamples_fst_length, randints_fst_length,
    num_samples]

theorem df_26_100_map_cohort :
    df_26_100.map Row.cohort = List.replicate 1000 "medium" := by
  rw [df_26_100, mkFrame_map_cohort]
  simp [medium_draws, medium_sizes, mvnSamples_fst_length, randints_fst_length,
    num_samples]

theorem df_101_500_map_cohort :
    df_101_500.map Row.cohort = List.replicate 1000 "large" := by
  rw [df_101_500, mkFrame_map_cohort, List.length_replicate]
  have h : large_draws.1.length = num_samples :=
    mvnSamples_fst_length mu r_101_500 num_samples medium_sizes.2
  rw [h, min_self]
  rfl

theorem df_501_map_cohort :
    df_501_.map Row.cohort = List.replicate 1000 "very large" := by
  rw [df_501_, mkFrame_map_cohort]
  simp [vlarge_draws, vlarge_sizes, mvnSamples_fst_length, randints_fst_length,
    num_samples]

theorem df_1_5_map_firm_size :
    df_1_5.map Row.firm_size = micro_sizes.1.map some := by
  apply mkFrame_map_firm_size
  simp [micro_draws, micro_sizes, mvnSamples_fst_length, randints_fst_length]

theorem df_6_25_map_firm_size :
    df_6_25.map Row.firm_size = small_sizes.1.map some := by
  apply mkFrame_map_firm_size
  simp [small_draws, small_sizes, mvnSamples_fst_length, randints_fst_length]

theorem df_26_100_map_firm_size :
    df_26_100.map Row.firm_size = medium_sizes.1.map some := by
  apply mkFrame_map_firm_size
  simp [medium_draws, medium_sizes, mvnSamples_fst_length, randints_fst_length]

theorem df_101_500_map_firm_size :
    df_101_500.map Row.firm_size = List.replicate 1000 none := by
  rw [df_101_500, mkFrame_map_firm_size]
  · rfl
  · rw [List.length_replicate]
    exact mvnSamples_fst_length mu r_101_500 num_samples medium_sizes.2

theorem df_501_map_firm_size :
    df_501_.map Row.firm_size = vlarge_sizes.1.map some := by
  apply mkFrame_map_firm_size
  simp [vlarge_draws, vlarge_sizes, mvnSamples_fst_length, randints_fst_length]

theorem micro_sizes_length : micro_sizes.1.length = 1000 := by
  simp [micro_sizes, randints_fst_length, num_samples]

theorem small_sizes_length : small_sizes.1.length = 1000 := by
  simp [small_sizes, randints_fst_length, num_samples]

theorem medium_sizes_length : medium_sizes.1.length = 1000 := by
  simp [medium_sizes, randints_fst_length, num_samples]

theorem vlarge_sizes_length : vlarge_sizes.1.length = 1000 := by
  simp [vlarge_sizes, randints_fst_length, num_samples]

theorem df_map_cohort :
    df.map Row.cohort =
      List.replicate 1000 "micro" ++ List.replicate 1000 "large" ++
      List.replicate 1000 "medium" ++ List.replicate 1000 "large" ++
      List.replicate 1000 "very large" := by
  simp only [df, List.map_append, df_1_5_map_cohort, df_6_25_map_cohort,
    df_26_100_map_cohort, df_101_500_map_cohort, df_501_map_cohort]

theorem df_map_firm_size :
    df.map Row.firm_size =
      micro_sizes.1.map some ++ small_sizes.1.map some ++
      medium_sizes.1.map some ++ List.replicate 1000 none ++
      vlarge_sizes.1.map some := by
  simp only [df, List.map_append, df_1_5_map_firm_size, df_6_25_map_firm_size,
    df_26_100_map_firm_size, df_101_500_map_firm_size, df_501_map_firm_size]

theorem df_length : df.length = 5000 := by
  have h := congrArg List.length df_map_cohort
  rw [List.length_map] at h
  rw [h]
  simp only [List.length_append, List.length_replicate]

theorem df_101_500_length : df_101_500.length = 1000 := by
  have h := congrArg List.length df_101_500_map_firm_size
  rw [List.length_map, List.length_replicate] at h
  exact h

/-- Claim C2: the claim states every row of the concatenated dataset has an
in-range `firm_size`; in the source, the fourth cohort's rows instead have
null `firm_size` (the recorded `df.info()` shows 4000 non-null of 5000),
because cell-23 assigns the generated sizes into `df_501_` rather than
`df_101_500`.  This theorem evaluates the embedded code at the notebook's
configuration: 5000 rows, only 4000 of them with a non-null `firm_size`. -/
theorem claim_C2_firm_size_nulls :
    df.length = 5000 ∧ df.countP (fun r => (r.firm_size).isSome) = 4000 := by
  refine ⟨df_length, ?_⟩
  rw [show (fun r : Row => (r.firm_size).isSome) = Option.isSome ∘ Row.firm_size
      from rfl]
  rw [← List.countP_map, df_map_firm_size]
  simp only [List.countP_append, List.countP_map, List.countP_replicate]
  simp only [Function.comp_def, Option.isSome_some, Option.isSome_none,
    List.countP_true, micro_sizes_length, small_sizes_length,
    medium_sizes_length, vlarge_sizes_length, Bool.false_eq_true, if_false]

/-- Claim C3: the claim states each row's `cohort` matches exactly one
configured spec and each label carries `num_samples` rows; in the source the
6-25 cohort is labelled `'large'`, the same label as the 101-500 cohort, so
the label `'large'` carries 2000 rows and the label `'small'` zero. -/
theorem claim_C3_duplicate_label_counts :
    (df.map Row.cohort).count "large" = 2000 ∧
    (df.map Row.cohort).count "small" = 0 ∧
    (df.map Row.cohort).count "micro" = 1000 := by
  rw [df_map_cohort]
  simp only [List.count_append, List.count_replicate]
  refine ⟨?_, ?_, ?_⟩ <;> decide

/-- Claim C4 counterexample: the claim states that no cohort is left without a
`firm_size` column after concatenation; in the source, the fourth cohort's
frame `df_101_500` (1000 rows, present in the concatenated `df`) has a null
`firm_size` on every row, because its firm-size assignment targets `df_501_`. -/
theorem claim_C4_counterexample :
    ¬ (∀ r ∈ df, (r.firm_size).isSome = true) ∧
    df_101_500.map Row.firm_size = List.replicate 1000 none ∧
    df_101_500.length = 1000 ∧
    df = df_1_5 ++ df_6_25 ++ df_26_100 ++ df_101_500 ++ df_501_ := by
  refine ⟨?_, df_101_500_map_firm_size, df_101_500_length, rfl⟩
  intro hall
  have hne : df_101_500 ≠ [] := by
    intro hnil
    have := df_101_500_length
    rw [hnil] at this
    simp at this
  obtain ⟨r, hr⟩ := List.exists_mem_of_ne_nil df_101_500 hne
  have hnone : r.firm_size = none := by
    have hmem : r.firm_size ∈ df_101_500.map Row.firm_size :=
      List.mem_map_of_mem Row.firm_size hr
    rw [df_101_500_map_firm_size] at hmem
    exact List.eq_of_mem_replicate hmem
  have hdf : r ∈ df := by
    show r ∈ df_1_5 ++ df_6_25 ++ df_26_100 ++ df_101_500 ++ df_501_
    simp [hr]
  have := hall r hdf
  rw [hnone] at this
  simp at this

/-- Claim C4 (amended): the fourth cohort's firm-size assignment writes into
`df_501_` instead of `df_101_500`, so after concatenation exactly the 1000
rows of the fourth cohort carry a null `firm_size`, while every row of the
other four frames carries a non-null one (cell-25 rebuilds `df_501_` and
overwrites the leaked values with the very-large cohort's own sizes). -/
theorem claim_C4_amended :
    df.countP (fun r => (r.firm_size).isNone) = 1000 ∧
    (df_1_5 ++ df_6_25 ++ df_26_100 ++ df_501_).countP
      (fun r => (r.firm_size).isNone) = 0 := by
  constructor
  · rw [show (fun r : Row => (r.firm_size).isNone) = Option.isNone ∘ Row.firm_size
        from rfl]
    rw [← List.countP_map, df_map_firm_size]
    simp only [List.countP_append, List.countP_map, List.countP_replicate]
    simp only [Function.comp_def, Option.isNone_some, Option.isNone_none,
      List.countP_false, if_true]
    rfl
  · rw [show (fun r : Row => (r.firm_size).isNone) = Option.isNone ∘ Row.firm_size
        from rfl]
    rw [← List.countP_map]
    simp only [List.map_append, df_1_5_map_firm_size, df_6_25_map_firm_size,
      df_26_100_map_firm_size, df_501_map_firm_size]
    simp only [List.countP_append, List.countP_map]
    simp only [Function.comp_def, Option.isNone_some, List.countP_false,
      Function.const_apply]

/-- Claim C10: the five correlation matrices agree everywhere except at
positions (0,1) and (1,0) (the job_sat/int_qui correlation), whose value
strictly increases along the configured cohort order
(-0.40 < -0.30 < -0.25 < -0.20 < -0.15), and each matrix is symmetric with
unit diagonal. -/
theorem claim_C10_correlation_progression :
    (∀ i j : Fin 4,
      (i, j) = ((0 : Fin 4), (1 : Fin 4)) ∨ (i, j) = ((1 : Fin 4), (0 : Fin 4)) ∨
      (r_1_5 i j = r_6_25 i j ∧ r_6_25 i j = r_26_100 i j ∧
       r_26_100 i j = r_101_500 i j ∧ r_101_500 i j = r_501_ i j)) ∧
    (r_1_5 0 1 = -0.40 ∧ r_6_25 0 1 = -0.30 ∧ r_26_100 0 1 = -0.25 ∧
     r_101_500 0 1 = -0.20 ∧ r_501_ 0 1 = -0.15) ∧
    (r_1_5 0 1 < r_6_25 0 1 ∧ r_6_25 0 1 < r_26_100 0 1 ∧
     r_26_100 0 1 < r_101_500 0 1 ∧ r_101_500 0 1 < r_501_ 0 1) ∧
    ((∀ i j, r_1_5 i j = r_1_5 j i) ∧ (∀ i j, r_6_25 i j = r_6_25 j i) ∧
     (∀ i j, r_26_100 i j = r_26_100 j i) ∧
     (∀ i j, r_101_500 i j = r_101_500 j i) ∧
     (∀ i j, r_501_ i j = r_501_ j i)) ∧
    ((∀ i, r_1_5 i i = 1) ∧ (∀ i, r_6_25 i i = 1) ∧ (∀ i, r_26_100 i i = 1) ∧
     (∀ i, r_101_500 i i = 1) ∧ (∀ i, r_501_ i i = 1)) := by
  refine ⟨?_, ?_, ?_, ⟨?_, ?_, ?_, ?_, ?_⟩, ⟨?_, ?_, ?_, ?_, ?_⟩⟩
  · intro i j
    fin_cases i <;> fin_cases j <;>
      norm_num [r_1_5, r_6_25, r_26_100, r_101_500, r_501_]
  · norm_num [r_1_5, r_6_25, r_26_100, r_101_500, r_501_]
  · norm_num [r_1_5, r_6_25, r_26_100, r_101_500, r_501_]
  all_goals intro i
  all_goals first
    | (intro j; fin_cases i <;> fin_cases j <;>
        norm_num [r_1_5, r_6_25, r_26_100, r_101_500, r_501_])
    | (fin_cases i <;> norm_num [r_1_5, r_6_25, r_26_100, r_101_500, r_501_])

/-- Claim C8: every cohort's multivariate-normal call uses the same mean
vector `mu = (0,0,0,0)` and the same sample count; the five calls differ only
in the correlation matrix (which does differ between consecutive cohorts).
The last five conjuncts tie the call list to the notebook's five draw
pipelines. -/
theorem claim_C8_shared_mean :
    mu = (fun _ => (0 : ℚ)) ∧
    nbMvnCalls.map MvnCall.mean = List.replicate 5 mu ∧
    nbMvnCalls.map MvnCall.size = List.replicate 5 num_samples ∧
    nbMvnCalls.map MvnCall.cov = [r_1_5, r_6_25, r_26_100, r_101_500, r_501_] ∧
    (r_1_5 ≠ r_6_25 ∧ r_6_25 ≠ r_26_100 ∧ r_26_100 ≠ r_101_500 ∧
     r_101_500 ≠ r_501_) ∧
    micro_draws = mvnSamples mu r_1_5 num_samples seed0 ∧
    small_draws = mvnSamples mu r_6_25 num_samples micro_sizes.2 ∧
    medium_draws = mvnSamples mu r_26_100 num_samples small_sizes.2 ∧
    large_draws = mvnSamples mu r_101_500 num_samples medium_sizes.2 ∧
    vlarge_draws = mvnSamples mu r_501_ num_samples large_leak_sizes.2 := by
  refine ⟨rfl, rfl, rfl, rfl, ⟨?_, ?_, ?_, ?_⟩, rfl, rfl, rfl, rfl, rfl⟩ <;>
    (intro h;
     have h2 := congrFun (congrFun h 0) 1;
     norm_num [r_1_5, r_6_25, r_26_100, r_101_500, r_501_] at h2)

theorem sampleCohort_fst_length (n : Nat) (c : CohortSpec) (s : Nat) :
    (sampleCohort n c s).1.length = n := by
  simp [sampleCohort, mkFrame_length, mvnSamples_fst_length, randints_fst_length]

theorem sampleCohort_map_cohort (n : Nat) (c : CohortSpec) (s : Nat) :
    (sampleCohort n c s).1.map Row.cohort = List.replicate n c.label := by
  simp [sampleCohort, mkFrame_map_cohort, mvnSamples_fst_length,
    randints_fst_length]

theorem generate_length (n : Nat) :
    ∀ (specs : List CohortSpec) (s : Nat),
      (generate n specs s).length = n * specs.length := by
  intro specs
  induction specs with
  | nil => intro s; simp [generate]
  | cons c rest ih =>
    intro s
    simp [generate, sampleCohort_fst_length, ih]
    ring

theorem generate_map_cohort (n : Nat) :
    ∀ (specs : List CohortSpec) (s : Nat),
      (generate n specs s).map Row.cohort =
        (specs.map fun c => List.replicate n c.label).flatten := by
  intro specs
  induction specs with
  | nil => intro s; simp [generate]
  | cons c rest ih =>
    intro s
    simp [generate, sampleCohort_map_cohort, ih]

/-- Claim C1: for every cohort-spec sequence and positive sample count, the
generated dataset has exactly `num_samples * len(cohort_specs)` rows (proved
for all spec sequences, valid or not), and the notebook's concatenated
dataset `df` (5 cohorts, `num_samples = 1000`) has exactly 5000 rows. -/
theorem claim_C1_row_count (n : Nat) (specs : List CohortSpec) (seed : Nat)
    (_h : 0 < n) :
    (generate n specs seed).length = n * specs.length ∧ df.length = 5000 :=
  ⟨generate_length n specs seed, df_length⟩

/-- Claim C1 witness: a concrete instance at `n = 2` and one cohort spec. -/
theorem claim_C1_witness :
    0 < 2 ∧
    ((generate 2 [microSpec] 0).length = 2 * [microSpec].length ∧
     df.length = 5000) :=
  ⟨by decide, claim_C1_row_count 2 [microSpec] 0 (by decide)⟩

/-- Claim C6: concatenation is order-preserving: the generated dataset's
cohort column is exactly the cohort labels in spec order, each repeated `n`
times as one contiguous block, and the notebook's `df` is the concatenation
of the five frames in the listed cell order with the corresponding label
blocks (rows within each block are in draw order by construction of
`mkFrame`). -/
theorem claim_C6_order_preserved (n : Nat) (specs : List CohortSpec) (seed : Nat) :
    (generate n specs seed).map Row.cohort =
      (specs.map fun c => List.replicate n c.label).flatten ∧
    df = df_1_5 ++ df_6_25 ++ df_26_100 ++ df_101_500 ++ df_501_ ∧
    df.map Row.cohort =
      List.replicate 1000 "micro" ++ List.replicate 1000 "large" ++
      List.replicate 1000 "medium" ++ List.replicate 1000 "large" ++
      List.replicate 1000 "very large" :=
  ⟨generate_map_cohort n specs seed, rfl, df_map_cohort⟩

theorem generateRel_iff (n : Nat) :
    ∀ (specs : List CohortSpec) (s : Nat) (out : List Row),
      GenerateRel n specs s out ↔ out = generate n specs s := by
  intro specs
  induction specs with
  | nil =>
    intro s out
    constructor
    · intro h
      cases h
      rfl
    · intro h
      subst h
      exact GenerateRel.nil s
  | cons c rest ih =>
    intro s out
    constructor
    · intro h
      cases h with
      | cons _ _ _ out' h' =>
        rw [(ih _ _).mp h']
        rfl
    · intro h
      subst h
      exact GenerateRel.cons c rest s (generate n rest (sampleCohort n c s).2)
        ((ih _ _).mpr rfl)

/-- Claim C7: determinism under a fixed entropy source: from the same seed
and the same inputs, any two runs of the sampling loop produce identical
datasets (every cell of every row equal); moreover the loop relation holds
of exactly the dataset computed by `generate`. -/
theorem claim_C7_determinism (n : Nat) (specs : List CohortSpec) (seed : Nat) :
    (∀ out1 out2, GenerateRel n specs seed out1 → GenerateRel n specs seed out2 →
      out1 = out2) ∧
    (∀ out, GenerateRel n specs seed out ↔ out = generate n specs seed) :=
  ⟨fun _ _ h1 h2 =>
      ((generateRel_iff n specs seed _).mp h1).trans
        ((generateRel_iff n specs seed _).mp h2).symm,
    fun _ => generateRel_iff n specs seed _⟩

/-- Claim C7 witness: a concrete instance of determinism on the empty spec
list. -/
theorem claim_C7_witness : ([] : List Row) = ([] : List Row) :=
  (claim_C7_determinism 1 [] 0).1 [] [] (GenerateRel.nil 0) (GenerateRel.nil 0)

theorem goGen_eq (n : Nat) :
    ∀ (specs : List CohortSpec) (s : Nat),
      goGen n specs s =
        if ∀ c ∈ specs, validSpec c then .ok (generate n specs s)
        else .error .invalidConfiguration := by
  intro specs
  induction specs with
  | nil => intro s; simp [goGen, generate]
  | cons c rest ih =>
    intro s
    by_cases hc : validSpec c
    · rw [goGen, if_pos hc, ih]
      by_cases hr : ∀ x ∈ rest, validSpec x
      · rw [if_pos hr, if_pos (List.forall_mem_cons.mpr ⟨hc, hr⟩)]
        rfl
      · rw [if_neg hr, if_neg (fun hall => hr (List.forall_mem_cons.mp hall).2)]
    · rw [goGen, if_neg hc, if_neg (fun hall => hc (List.forall_mem_cons.mp hall).1)]

/-- Claim C5: the checked `generate` fails (with the only defined error,
`InvalidConfiguration`) exactly when `num_samples <= 0` or some cohort spec
has a non-symmetric or non-PSD correlation matrix or
`firm_size_low >= firm_size_high`; otherwise it returns the complete dataset
of all cohorts — a failure aborts the whole run and never yields a partial
dataset. -/
theorem claim_C5_invalid_configuration (n : ℤ) (specs : List CohortSpec)
    (seed : Nat) :
    generateChecked n specs seed =
      if n ≤ 0 ∨ ∃ c ∈ specs, ¬ validSpec c then
        Except.error InvalidConfiguration.invalidConfiguration
      else Except.ok (generate n.toNat specs seed) := by
  unfold generateChecked
  by_cases hn : n ≤ 0
  · simp [hn]
  · rw [if_neg hn, goGen_eq]
    by_cases hv : ∀ c ∈ specs, validSpec c
    · rw [if_pos hv, if_neg]
      intro hcontra
      rcases hcontra with h | ⟨c, hcm, hcv⟩
      · exact hn h
      · exact hcv (hv c hcm)
    · have hv' := hv
      push_neg at hv'
      rw [if_neg hv, if_pos (Or.inr hv')]

/-- Claim C9: a fresh sequential top-to-bottom run of the notebook fails at
cell index 8 (cell-23, the fourth cohort) with an undefined-name error on
`df_501_`, which no earlier cell writes; the concatenation cell (index 10,
the only writer of `df`) is never reached, so no dataset is produced. -/
theorem claim_C9_sequential_run_fails :
    runNotebook = Except.error 8 ∧
    (nbCells.get ⟨8, by decide⟩).reads.contains "df_501_" = true ∧
    ((nbCells.take 8).map Cell.writes).flatten.contains "df_501_" = false ∧
    (nbCells.get ⟨10, by decide⟩).writes = ["df"] :=
  ⟨rfl, rfl, rfl, rfl⟩

-- Range of np.random.randint draws: supporting facts for the in-range part
-- of the firm-size invariant (which holds for the four frames that do
-- receive a firm_size column).

theorem randint_bounds (low high : ℤ) (h : low < high) (s : Nat) :
    low ≤ (randint low high s).1 ∧ (randint low high s).1 < high := by
  unfold randint
  have h1 : (0 : ℤ) ≤ ((lcgNext s % (high - low).toNat : Nat) : ℤ) :=
    Int.natCast_nonneg _
  have hpos : 0 < (high - low).toNat := by omega
  have h2 : lcgNext s % (high - low).toNat < (high - low).toNat :=
    Nat.mod_lt _ hpos
  have h3 : ((lcgNext s % (high - low).toNat : Nat) : ℤ) <
      (((high - low).toNat : Nat) : ℤ) := Int.ofNat_lt.mpr h2
  have h4 : (((high - low).toNat : Nat) : ℤ) = high - low :=
    Int.toNat_of_nonneg (by omega)
  constructor <;> simp only [] <;> omega

theorem randints_bounds (low high : ℤ) (h : low < high) :
    ∀ (n s : Nat), ∀ x ∈ (randints low high n s).1, low ≤ x ∧ x < high := by
  intro n
  induction n with
  | zero => intro s x hx; simp [randints] at hx
  | succ k ih =>
    intro s x hx
    simp only [randints, List.mem_cons] at hx
    rcases hx with hx | hx
    · rw [hx]
      exact randint_bounds low high h _
    · exact ih _ x hx

theorem frame_firm_size_bounds (frame : List Row) (l : List ℤ) (low high : ℤ)
    (hmap : frame.map Row.firm_size = l.map some)
    (hl : ∀ x ∈ l, low ≤ x ∧ x < high) :
    ∀ r ∈ frame, ∀ v, r.firm_size = some v → low ≤ v ∧ v < high := by
  intro r hr v hv
  have hmem : r.firm_size ∈ l.map some := by
    rw [← hmap]
    exact List.mem_map_of_mem Row.firm_size hr
  rcases List.mem_map.mp hmem with ⟨y, hy, hyeq⟩
  rw [hv] at hyeq
  obtain rfl : y = v := Option.some.inj hyeq
  exact hl y hy

/-- In-range firm sizes hold for the four frames that do receive a firm_size
column: every non-null firm size lies in its cohort's configured half-open
range (`df_101_500` receives none at all, see `claim_C2_firm_size_nulls`). -/
theorem df_firm_size_inrange :
    (∀ r ∈ df_1_5, ∀ v, r.firm_size = some v → 1 ≤ v ∧ v < 5) ∧
    (∀ r ∈ df_6_25, ∀ v, r.firm_size = some v → 6 ≤ v ∧ v < 25) ∧
    (∀ r ∈ df_26_100, ∀ v, r.firm_size = some v → 26 ≤ v ∧ v < 100) ∧
    (∀ r ∈ df_501_, ∀ v, r.firm_size = some v → 501 ≤ v ∧ v < 2000) := by
  refine ⟨?_, ?_, ?_, ?_⟩
  · exact frame_firm_size_bounds df_1_5 micro_sizes.1 1 5 df_1_5_map_firm_size
      (randints_bounds 1 5 (by norm_num) num_samples micro_draws.2)
  · exact frame_firm_size_bounds df_6_25 small_sizes.1 6 25 df_6_25_map_firm_size
      (randints_bounds 6 25 (by norm_num) num_samples small_draws.2)
  · exact frame_firm_size_bounds df_26_100 medium_sizes.1 26 100
      df_26_100_map_firm_size
      (randints_bounds 26 100 (by norm_num) num_samples medium_draws.2)
  · exact frame_firm_size_bounds df_501_ vlarge_sizes.1 501 2000
      df_501_map_firm_size
      (randints_bounds 501 2000 (by norm_num) num_samples vlarge_draws.2)
